import Mathlib

/-!
Shallow embedding of the two source files of this repository:
`magenta/models/drums_rnn/drums_rnn_sequence_generator.py` and
`magenta/interfaces/midi/magenta_midi.py`.

Conventions.  Python floats that hold times and tempos are modelled as
rationals, Python ints as `Int`, values that may be `None` as `Option`,
raised exceptions as `Except.error`, and `print` statements as typed
`Output` events accumulated in a list.  Library and model functions that
the two files call but whose code is not part of this repository snapshot
(magenta.music utilities, the drums model, the midi_hub port list) are
oracle fields of explicit environment structures, applied exactly where and
with exactly the arguments the source applies them.
-/

/-- A note of a NoteSequence protobuf: the fields the generator reads. -/
structure Note where
  pitch : Int
  velocity : Int
  start_time : ℚ
  end_time : ℚ
deriving DecidableEq

/-- A tempo entry of a NoteSequence protobuf. -/
structure Tempo where
  qpm : ℚ
deriving DecidableEq

instance : Inhabited Tempo := ⟨⟨0⟩⟩

/-- The NoteSequence protobuf fields used by the two files. -/
structure NoteSequence where
  notes : List Note
  tempos : List Tempo
  total_time : ℚ
deriving DecidableEq

/-- One section of GeneratorOptions: a (start time, end time) range. -/
structure GeneratorSection where
  start_time : ℚ
  end_time : ℚ
deriving DecidableEq

instance : Inhabited GeneratorSection := ⟨⟨0, 0⟩⟩

/-- A generator argument value carrying the protobuf float and int fields;
the accessor table of lines 103-108 picks one of the two fields. -/
structure ArgValue where
  float_value : ℚ
  int_value : Int
deriving DecidableEq

/-- The GeneratorOptions protobuf: repeated input and generate sections and
an args map (modelled as an association list with unique keys). -/
structure GeneratorOptions where
  input_sections : List GeneratorSection
  generate_sections : List GeneratorSection
  args : List (String × ArgValue)
deriving DecidableEq

/-- A Python value produced by one of the accessors of arg_types: either
the float field or the int field of an ArgValue. -/
inductive PyVal
  | floatVal (q : ℚ)
  | intVal (i : Int)
deriving DecidableEq

/-- A magenta.music.DrumTrack: per-step pitch sets plus a start step.  In
Python the object is truthy iff its event list is nonempty. -/
structure DrumTrack where
  events : List (List Int)
  start_step : Int
deriving DecidableEq

instance : Inhabited DrumTrack := ⟨⟨[], 0⟩⟩

/-- Opaque result of mm.quantize_note_sequence. -/
structure QuantizedSequence where
  seq : NoteSequence
deriving DecidableEq

/-- Oracle environment for DrumsRnnSequenceGenerator: the library and model
functions called by `_generate` whose implementations live outside the two
repository files.  `steps_per_quarter` is the constructor argument (default
4).  `extract_drum_tracks` takes the quantized sequence and the
search_start_step argument; the constant arguments min_bars=0 and
gap_bars=inf of line 82-83 are absorbed into the oracle.  `set_length` is
DrumTrack.set_length, returning the updated track, and `generate_drum_track`
is the model call of line 113-114 taking the step count, the primer track
and the extracted args. -/
structure GenEnv where
  steps_per_quarter : Nat
  seconds_to_steps : ℚ → ℚ → Int
  extract_subsequence : NoteSequence → ℚ → ℚ → NoteSequence
  quantize_note_sequence : NoteSequence → Nat → QuantizedSequence
  extract_drum_tracks : QuantizedSequence → Int → List DrumTrack
  set_length : DrumTrack → Int → DrumTrack
  generate_drum_track : Int → DrumTrack → List (String × PyVal) → DrumTrack
  to_sequence : DrumTrack → ℚ → NoteSequence

/-- The exceptions `_generate` can raise: the two explicit
SequenceGeneratorException raises at lines 45-52, the one at lines 70-75,
and the two assert statements (lines 84 and 116, AssertionError). -/
inductive GenError
  | tooManyInputSections
  | wrongGenerateSectionCount
  | generateSectionBeforeEnd
  | assertTooManyTracks
  | assertTotalTime
deriving DecidableEq

instance {ε α : Type} [DecidableEq ε] [DecidableEq α] :
    DecidableEq (Except ε α) := fun a b =>
  match a, b with
  | .ok x, .ok y =>
      if h : x = y then isTrue (by rw [h]) else isFalse (by simp [h])
  | .error x, .error y =>
      if h : x = y then isTrue (by rw [h]) else isFalse (by simp [h])
  | .ok _, .error _ => isFalse (by simp)
  | .error _, .ok _ => isFalse (by simp)

/-- Modelled from the library: mm.DEFAULT_QUARTERS_PER_MINUTE is 120. -/
def DEFAULT_QUARTERS_PER_MINUTE : ℚ := 120

/-- The float literal 1e-5 of the assert at line 116. -/
def ASSERT_TOLERANCE : ℚ := 1 / 100000

/-- Lines 54-56: the qpm is the first tempo of the input sequence when the
repeated tempos field is nonempty, otherwise the library default.  A
protobuf message object is always truthy in Python, so the conjunction
`input_sequence and input_sequence.tempos` reduces to the emptiness test on
the tempos field. -/
def computeQpm (input_sequence : NoteSequence) : ℚ :=
  if input_sequence.tempos ≠ [] then (input_sequence.tempos.headI).qpm
  else DEFAULT_QUARTERS_PER_MINUTE

/-- Lines 58-66: the primer sequence and the input start step, depending on
whether an input section is present (truthiness of the repeated field). -/
def primerAndStart (env : GenEnv) (input_sequence : NoteSequence)
    (generator_options : GeneratorOptions) (qpm : ℚ) : NoteSequence × Int :=
  if generator_options.input_sections ≠ [] then
    (env.extract_subsequence input_sequence
       (generator_options.input_sections.headI).start_time
       (generator_options.input_sections.headI).end_time,
     env.seconds_to_steps (generator_options.input_sections.headI).start_time
       qpm)
  else (input_sequence, 0)

/-- Lines 68-69: Python max of the note end times of a nonempty note list,
and 0 for an empty one. -/
def lastEndTime : List Note → ℚ
  | [] => 0
  | n :: rest => rest.foldl (fun acc m => max acc m.end_time) n.end_time

/-- Lines 103-108: the arg_types accessor table. -/
def argTypes : List (String × (ArgValue → PyVal)) :=
  [("temperature", fun arg => PyVal.floatVal arg.float_value),
   ("beam_size", fun arg => PyVal.intVal arg.int_value),
   ("branch_factor", fun arg => PyVal.intVal arg.int_value),
   ("steps_per_iteration", fun arg => PyVal.intVal arg.int_value)]

/-- Lines 109-111: the dict comprehension that keeps exactly the entries of
generator_options.args whose name occurs in arg_types, applying the
matching accessor. -/
def extractArgs (generator_options : GeneratorOptions) :
    List (String × PyVal) :=
  argTypes.filterMap (fun p =>
    match List.lookup p.1 generator_options.args with
    | some arg => some (p.1, p.2 arg)
    | none => none)

/-- DrumsRnnSequenceGenerator._generate, lines 44-117, as a function from
the oracle environment, the input sequence and the options to either the
generated sequence or the raised exception. -/
def _generate (env : GenEnv) (input_sequence : NoteSequence)
    (generator_options : GeneratorOptions) : Except GenError NoteSequence :=
  if generator_options.input_sections.length > 1 then
    Except.error GenError.tooManyInputSections
  else if generator_options.generate_sections.length ≠ 1 then
    Except.error GenError.wrongGenerateSectionCount
  else
    let qpm := computeQpm input_sequence
    let generate_section := generator_options.generate_sections.headI
    let pr := primerAndStart env input_sequence generator_options qpm
    if lastEndTime pr.1.notes ≥ generate_section.start_time then
      Except.error GenError.generateSectionBeforeEnd
    else
      let quantized_sequence :=
        env.quantize_note_sequence pr.1 env.steps_per_quarter
      let extracted_drum_tracks :=
        env.extract_drum_tracks quantized_sequence pr.2
      if extracted_drum_tracks.length > 1 then
        Except.error GenError.assertTooManyTracks
      else
        let start_step := env.seconds_to_steps generate_section.start_time qpm
        let end_step := env.seconds_to_steps generate_section.end_time qpm
        let drums0 :=
          if extracted_drum_tracks ≠ [] ∧
              extracted_drum_tracks.headI.events ≠ [] then
            extracted_drum_tracks.headI
          else
            DrumTrack.mk [] (max 0 (start_step - 1))
        let drums := env.set_length drums0 (start_step - drums0.start_step)
        let generated_drums :=
          env.generate_drum_track (end_step - drums.start_step) drums
            (extractArgs generator_options)
        let generated_sequence := env.to_sequence generated_drums qpm
        if generated_sequence.total_time - generate_section.end_time ≤
            ASSERT_TOLERANCE then
          Except.ok generated_sequence
        else
          Except.error GenError.assertTotalTime

/-- The values held by tf.app.flags for magenta_midi.py: one field per
DEFINE_ call of lines 32-81, with `None` defaults modelled as `Option`. -/
structure Flags where
  list_ports : Bool
  input_port : String
  output_port : String
  phrase_bars : Option Int
  start_call_control_number : Option Int
  end_call_control_number : Option Int
  temperature_control_number : Option Int
  qpm : Int
  bundle_files : Option String
  generator_select_control_number : Option Int
  log : String
deriving DecidableEq

/-- A flag value as returned by attribute access on the FLAGS object. -/
inductive FlagValue
  | boolVal (b : Bool)
  | strVal (s : String)
  | intVal (i : Int)
  | optIntVal (o : Option Int)
  | optStrVal (o : Option String)
deriving DecidableEq

/-- Python exceptions surfacing from the midi interface model. -/
inductive PyError
  | attributeError (name : String)
deriving DecidableEq

/-- Attribute access FLAGS.name.  The tf flags object raises AttributeError
for a name that no DEFINE_ call declared; only the eleven flags of lines
32-81 are declared for this file. -/
def flagAttr (fl : Flags) : String → Except PyError FlagValue
  | "list_ports" => Except.ok (FlagValue.boolVal fl.list_ports)
  | "input_port" => Except.ok (FlagValue.strVal fl.input_port)
  | "output_port" => Except.ok (FlagValue.strVal fl.output_port)
  | "phrase_bars" => Except.ok (FlagValue.optIntVal fl.phrase_bars)
  | "start_call_control_number" =>
      Except.ok (FlagValue.optIntVal fl.start_call_control_number)
  | "end_call_control_number" =>
      Except.ok (FlagValue.optIntVal fl.end_call_control_number)
  | "temperature_control_number" =>
      Except.ok (FlagValue.optIntVal fl.temperature_control_number)
  | "qpm" => Except.ok (FlagValue.intVal fl.qpm)
  | "bundle_files" => Except.ok (FlagValue.optStrVal fl.bundle_files)
  | "generator_select_control_number" =>
      Except.ok (FlagValue.optIntVal fl.generator_select_control_number)
  | "log" => Except.ok (FlagValue.strVal fl.log)
  | name => Except.error (PyError.attributeError name)

/-- The midi_hub port environment: the system port lists returned by
get_available_input_ports and get_available_output_ports. -/
structure MidiEnv where
  availableInputPorts : List String
  availableOutputPorts : List String

/-- The print statements of magenta_midi.py as typed events; each
constructor stands for one print site, carrying the interpolated data. -/
inductive Output
  | listPorts (ins outs : List String)
  | bundleFilesMissing
  | boundaryFlagError
  | selectFlagError
  | failedToParse (v : FlagValue)
  | unknownGeneratorId (generator_id : String) (v : FlagValue)
  | loadedGenerator (generator_id : String) (bundle_file : String)
  | virtualInput (port : String)
  | virtualOutput (port : String)
  | blank
  | instructionsHeader
  | startCallInstr (c : Int)
  | playMetronome
  | phraseBarsInstr (n : Int)
  | endCallInstr (c : Option Int)
  | endOfBarInstr
  | waitSignalInstr (c : Int)
  | playAgainInstr
  | ctrlCInstr
deriving DecidableEq

/-- Python str.split with a comma separator: splitCommaAux cs acc walks the
characters with the current fragment accumulated in reverse in acc. -/
def splitCommaAux : List Char → List Char → List String
  | [], acc => [String.mk acc.reverse]
  | c :: rest, acc =>
      if c = ',' then String.mk acc.reverse :: splitCommaAux rest []
      else splitCommaAux rest (c :: acc)

/-- Python s.split(',') (always a nonempty list; the empty string splits
to [""]). -/
def pySplitComma (s : String) : List String := splitCommaAux s.data []

/-- Line 100: Python tuple count of None over the pair
(end_call_control_number, phrase_bars). -/
def noneCount2 (a b : Option Int) : Nat :=
  (if a = none then 1 else 0) + (if b = none then 1 else 0)

/-- _validate_flags, lines 87-111, with its prints as Output events.  The
split at line 105 is applied to the flag value guarded non-None by the
check at line 96, hence the getD. -/
def _validate_flags (env : MidiEnv) (fl : Flags) : List Output × Bool :=
  if fl.list_ports then
    ([Output.listPorts env.availableInputPorts env.availableOutputPorts],
     false)
  else if fl.bundle_files = none then
    ([Output.bundleFilesMissing], false)
  else if noneCount2 fl.end_call_control_number fl.phrase_bars ≠ 1 then
    ([Output.boundaryFlagError], false)
  else if (pySplitComma (fl.bundle_files.getD "")).length > 1 ∧
      fl.generator_select_control_number = none then
    ([Output.selectFlagError], false)
  else ([], true)

/-- Result of magenta.music.sequence_generator_bundle.read_bundle_file: a
parse failure (GeneratorBundleParseException) or a bundle whose
generator_details.id is the given string. -/
inductive BundleReadResult
  | parseFailure
  | parsed (generator_id : String)

/-- Oracle environment for generator loading: the bundle reader and the set
of generator ids present in _GENERATOR_MAP (line 84). -/
structure LoadEnv where
  read_bundle_file : String → BundleReadResult
  generator_map : List String

/-- A loaded, ready generator as produced by line 129-130. -/
structure Generator where
  generator_id : String
  bundle_file : String
deriving DecidableEq

/-- _load_generator_from_bundle_file, lines 114-133.  Both failure branches
format their message with FLAGS.bundle_file, an attribute that no DEFINE_
call declares (the declared flag is bundle_files), so the attribute access
raises before anything is printed; the model keeps that evaluation order. -/
def _load_generator_from_bundle_file (lenv : LoadEnv) (fl : Flags)
    (bundle_file : String) : Except PyError (List Output × Option Generator) :=
  match lenv.read_bundle_file bundle_file with
  | BundleReadResult.parseFailure =>
    match flagAttr fl "bundle_file" with
    | Except.error e => Except.error e
    | Except.ok v => Except.ok ([Output.failedToParse v], none)
  | BundleReadResult.parsed generator_id =>
    if generator_id ∈ lenv.generator_map then
      Except.ok ([Output.loadedGenerator generator_id bundle_file],
        some (Generator.mk generator_id bundle_file))
    else
      match flagAttr fl "bundle_file" with
      | Except.error e => Except.error e
      | Except.ok v =>
          Except.ok ([Output.unknownGeneratorId generator_id v], none)

/-- Outcome of the generator loading loop of main. -/
inductive LoadOutcome
  | raised (e : PyError)
  | failed
  | loaded (generators : List Generator)
deriving DecidableEq

/-- The loading loop of main, lines 171-175: loads each bundle file in
order, returning from main at the first load that yields None; an
uncaught exception aborts everything, keeping the prints already made. -/
def loadLoop (lenv : LoadEnv) (fl : Flags) :
    List String → List Output × LoadOutcome
  | [] => ([], LoadOutcome.loaded [])
  | bundle_file :: rest =>
    match _load_generator_from_bundle_file lenv fl bundle_file with
    | Except.error e => ([], LoadOutcome.raised e)
    | Except.ok (out, none) => (out, LoadOutcome.failed)
    | Except.ok (out, some g) =>
      let r := loadLoop lenv fl rest
      (out ++ r.1,
       match r.2 with
       | LoadOutcome.loaded gs => LoadOutcome.loaded (g :: gs)
       | x => x)

/-- A MIDI message as captured from a port. -/
inductive MidiMessage
  | noteOn (pitch velocity : Int) (time : ℚ)
  | noteOff (pitch : Int) (time : ℚ)
  | controlChange (number value : Int) (time : ℚ)
deriving DecidableEq

/-- A midi_hub.MidiSignal matcher: present fields constrain the message,
absent fields are wildcards.  main builds only control/value signals. -/
structure MidiSignal where
  control : Option Int
  value : Option Int
  note : Option Int
  velocity : Option Int
deriving DecidableEq

/-- Modelled from the spec: midi_hub.MidiSignal matching is not part of the
repository snapshot; per the spec a message matches a signal iff every
present field of the signal equals the corresponding field of the message
(absent fields are wildcards), and a field the message kind does not carry
counts as unequal. -/
def MidiSignal.matchesMsg (sig : MidiSignal) : MidiMessage → Bool
  | MidiMessage.noteOn pitch velocity _ =>
      sig.control.isNone && sig.value.isNone &&
      (sig.note.isNone || sig.note == some pitch) &&
      (sig.velocity.isNone || sig.velocity == some velocity)
  | MidiMessage.noteOff pitch _ =>
      sig.control.isNone && sig.value.isNone && sig.velocity.isNone &&
      (sig.note.isNone || sig.note == some pitch)
  | MidiMessage.controlChange number value _ =>
      sig.note.isNone && sig.velocity.isNone &&
      (sig.control.isNone || sig.control == some number) &&
      (sig.value.isNone || sig.value == some value)

/-- The texture argument of the MidiHub constructor (line 182-183). -/
inductive TextureType
  | monophonic
  | polyphonic
deriving DecidableEq

/-- The MidiHub construction of line 182-183, recording its arguments. -/
structure MidiHub where
  input_port : String
  output_port : String
  texture : TextureType
deriving DecidableEq

/-- The CallAndResponseMidiInteraction construction of lines 191-199,
recording its arguments. -/
structure Interaction where
  hub : MidiHub
  generators : List Generator
  qpm : Int
  generator_select_control_number : Option Int
  phrase_bars : Option Int
  start_call_signal : Option MidiSignal
  end_call_signal : Option MidiSignal
  temperature_control_number : Option Int
deriving DecidableEq

/-- How a run of main ends in the model: flag validation failed (line
167-168), a generator load returned None (line 174-175), an uncaught Python
exception, or the interaction was constructed and started (line 203). -/
inductive MainOutcome
  | invalidFlags
  | loadFailed
  | pyError (e : PyError)
  | started (i : Interaction)
deriving DecidableEq

/-- _print_instructions, lines 136-161, as Output events.  The else branch
of lines 147-151 interpolates FLAGS.end_call_control_number with %d; that
flag can be None only if validation was skipped (then Python would raise a
TypeError), so the event carries the Option as data. -/
def _print_instructions (fl : Flags) : List Output :=
  [Output.blank, Output.instructionsHeader] ++
  (match fl.start_call_control_number with
   | some c => [Output.startCallInstr c]
   | none => []) ++
  [Output.playMetronome] ++
  (match fl.phrase_bars with
   | some n => [Output.phraseBarsInstr n]
   | none => [Output.endCallInstr fl.end_call_control_number,
              Output.endOfBarInstr]) ++
  (match fl.start_call_control_number with
   | some c => [Output.waitSignalInstr c]
   | none => [Output.playAgainInstr]) ++
  [Output.blank, Output.ctrlCInstr]

/-- main, lines 164-210 (named magentaMain here since Lean reserves main): validation, the loading loop, the virtual port
notices of lines 178-181, the MidiHub and signal construction, the
instruction prints and the start of the interaction. -/
def magentaMain (env : MidiEnv) (lenv : LoadEnv) (fl : Flags) :
    List Output × MainOutcome :=
  let v := _validate_flags env fl
  if v.2 = false then (v.1, MainOutcome.invalidFlags)
  else
    match fl.bundle_files with
    | none => (v.1, MainOutcome.invalidFlags)
    | some bfs =>
      let l := loadLoop lenv fl (pySplitComma bfs)
      match l.2 with
      | LoadOutcome.raised e => (v.1 ++ l.1, MainOutcome.pyError e)
      | LoadOutcome.failed => (v.1 ++ l.1, MainOutcome.loadFailed)
      | LoadOutcome.loaded generators =>
        let vports :=
          (if fl.input_port ∈ env.availableInputPorts then []
           else [Output.virtualInput fl.input_port]) ++
          (if fl.output_port ∈ env.availableOutputPorts then []
           else [Output.virtualOutput fl.output_port])
        let hub := MidiHub.mk fl.input_port fl.output_port
          TextureType.monophonic
        let start_call_signal := fl.start_call_control_number.map
          (fun c => MidiSignal.mk (some c) (some 0) none none)
        let end_call_signal := fl.end_call_control_number.map
          (fun c => MidiSignal.mk (some c) (some 0) none none)
        let interaction := Interaction.mk hub generators fl.qpm
          fl.generator_select_control_number fl.phrase_bars
          start_call_signal end_call_signal fl.temperature_control_number
        (v.1 ++ l.1 ++ vports ++ _print_instructions fl,
         MainOutcome.started interaction)

/-- Concrete oracle environment used by the evaluation theorems: trivial
but well-typed implementations of the library functions. -/
def wGenEnv : GenEnv where
  steps_per_quarter := 4
  seconds_to_steps := fun _ _ => 0
  extract_subsequence := fun s _ _ => s
  quantize_note_sequence := fun s _ => QuantizedSequence.mk s
  extract_drum_tracks := fun _ _ => []
  set_length := fun d _ => d
  generate_drum_track := fun _ d _ => d
  to_sequence := fun _ _ => NoteSequence.mk [] [] 0

/-- An empty input sequence without tempos. -/
def wInput : NoteSequence := NoteSequence.mk [] [] 0

/-- Options with no input section and one generate section [1, 2). -/
def wOpts : GeneratorOptions :=
  GeneratorOptions.mk [] [GeneratorSection.mk 1 2] []

/-- The sequence wGenEnv.to_sequence always returns. -/
def wSeq : NoteSequence := NoteSequence.mk [] [] 0

/-- An input sequence carrying one tempo of 150 qpm. -/
def wInputTempo : NoteSequence := NoteSequence.mk [] [Tempo.mk 150] 0

/-- A primer whose single note ends exactly at time 2. -/
def cInput : NoteSequence := NoteSequence.mk [Note.mk 38 100 0 2] [] 2

/-- Options whose generate section starts exactly at time 2. -/
def cOpts : GeneratorOptions :=
  GeneratorOptions.mk [] [GeneratorSection.mk 2 4] []

/-- Options whose args hold one recognized and one unrecognized name. -/
def wArgsOpts : GeneratorOptions :=
  GeneratorOptions.mk [] [GeneratorSection.mk 1 2]
    [("temperature", ArgValue.mk 3 7), ("foo", ArgValue.mk 1 1)]

/-- A port environment where only magenta_in exists as an input port. -/
def wMidiEnv : MidiEnv := MidiEnv.mk ["magenta_in"] []

/-- A load environment where every bundle parses to the known id drums. -/
def wLoadEnv : LoadEnv :=
  LoadEnv.mk (fun _ => BundleReadResult.parsed "drums") ["drums"]

/-- A fully valid flag assignment: single bundle, end-call signal set. -/
def wFlags : Flags :=
  Flags.mk false "magenta_in" "magenta_out" none (some 80) (some 82) none 90
    (some "drums.mag") none "WARN"

/-- The start-call signal magentaMain builds from wFlags. -/
def wSignalStart : MidiSignal := MidiSignal.mk (some 80) (some 0) none none

/-- The end-call signal magentaMain builds from wFlags. -/
def wSignalEnd : MidiSignal := MidiSignal.mk (some 82) (some 0) none none

/-- The interaction magentaMain constructs from wFlags. -/
def wInteraction : Interaction :=
  Interaction.mk (MidiHub.mk "magenta_in" "magenta_out"
      TextureType.monophonic)
    [Generator.mk "drums" "drums.mag"] 90 none none (some wSignalStart)
    (some wSignalEnd) none

/-- A flag assignment with exactly one boundary flag but no bundle_files. -/
def cFlagsOne : Flags :=
  Flags.mk false "magenta_in" "magenta_out" none none (some 82) none 90 none
    none "WARN"

/-- A flag assignment where neither boundary flag is specified. -/
def cFlagsNeither : Flags :=
  Flags.mk false "magenta_in" "magenta_out" none none none none 90
    (some "drums.mag") none "WARN"

/-- A flag assignment with two bundle files and no selection control. -/
def cFlagsTwo : Flags :=
  Flags.mk false "magenta_in" "magenta_out" none none (some 82) none 90
    (some "a.mag,b.mag") none "WARN"

/-- A valid flag assignment whose single bundle file will fail to load. -/
def cFlagsBad : Flags :=
  Flags.mk false "magenta_in" "magenta_out" none none (some 82) none 90
    (some "bad.mag") none "WARN"

/-- A load environment where every bundle file fails to parse. -/
def cLoadEnvParse : LoadEnv :=
  LoadEnv.mk (fun _ => BundleReadResult.parseFailure) ["drums"]

/-- A load environment where bundles parse to an id missing from the map. -/
def cLoadEnvUnknown : LoadEnv :=
  LoadEnv.mk (fun _ => BundleReadResult.parsed "unknown_model") ["drums"]

theorem validate_true_iff (env : MidiEnv) (fl : Flags) :
    (_validate_flags env fl).2 = true ↔
      (fl.list_ports = false ∧ fl.bundle_files ≠ none ∧
       noneCount2 fl.end_call_control_number fl.phrase_bars = 1 ∧
       ¬((pySplitComma (fl.bundle_files.getD "")).length > 1 ∧
         fl.generator_select_control_number = none)) := by
  unfold _validate_flags
  split_ifs with h1 h2 h3 h4 <;> simp_all

theorem main_invalid_of_validate_false (env : MidiEnv) (lenv : LoadEnv)
    (fl : Flags) (h : (_validate_flags env fl).2 = false) :
    (magentaMain env lenv fl).2 = MainOutcome.invalidFlags := by
  unfold magentaMain
  simp [h]

/-- C1 (amended): _validate_flags returns False whenever both or neither of
end_call_control_number and phrase_bars are specified (and then the
interaction never starts), and it returns True iff exactly one of them is
specified AND the remaining startup checks pass: list_ports is not set,
bundle_files is specified, and a selection control number is present
whenever several bundle files are given. -/
theorem c1_validate_flags_boundary_xor :
    ∀ (env : MidiEnv) (fl : Flags),
      ((noneCount2 fl.end_call_control_number fl.phrase_bars ≠ 1 →
        (_validate_flags env fl).2 = false) ∧
       ((_validate_flags env fl).2 = true ↔
         (fl.list_ports = false ∧ fl.bundle_files ≠ none ∧
          noneCount2 fl.end_call_control_number fl.phrase_bars = 1 ∧
          ¬((pySplitComma (fl.bundle_files.getD "")).length > 1 ∧
            fl.generator_select_control_number = none)))) ∧
      ∀ (lenv : LoadEnv) (i : Interaction),
        noneCount2 fl.end_call_control_number fl.phrase_bars ≠ 1 →
        (magentaMain env lenv fl).2 ≠ MainOutcome.started i := by
  intro env fl
  have hiff := validate_true_iff env fl
  have hfalse : noneCount2 fl.end_call_control_number fl.phrase_bars ≠ 1 →
      (_validate_flags env fl).2 = false := by
    intro h
    rcases Bool.eq_false_or_eq_true (_validate_flags env fl).2 with hb | hb
    · exact absurd (hiff.mp hb).2.2.1 h
    · exact hb
  refine ⟨⟨hfalse, hiff⟩, ?_⟩
  intro lenv i h
  rw [main_invalid_of_validate_false env lenv fl (hfalse h)]
  simp

/-- C1 counterexample: with bundle_files unspecified, exactly one of the
two boundary flags is specified and _validate_flags still returns False,
refuting the claimed equivalence. -/
theorem c1_counterexample :
    noneCount2 cFlagsOne.end_call_control_number cFlagsOne.phrase_bars = 1 ∧
    (_validate_flags wMidiEnv cFlagsOne).2 = false := by decide

theorem c1_witness :
    (magentaMain wMidiEnv wLoadEnv cFlagsNeither).2 ≠
      MainOutcome.started wInteraction :=
  (c1_validate_flags_boundary_xor wMidiEnv cFlagsNeither).2 wLoadEnv
    wInteraction (by decide)

/-- C4: with more than one bundle file and no selection control,
_validate_flags returns False; in the reachable context it reports the
selection error; with a single bundle file a missing selection control is
not an error. -/
theorem c4_multi_generator_select_required :
    ∀ (env : MidiEnv) (fl : Flags) (bfs : String),
      (fl.bundle_files = some bfs → (pySplitComma bfs).length > 1 →
        fl.generator_select_control_number = none →
        (_validate_flags env fl).2 = false) ∧
      (fl.list_ports = false → fl.bundle_files = some bfs →
        noneCount2 fl.end_call_control_number fl.phrase_bars = 1 →
        (pySplitComma bfs).length > 1 →
        fl.generator_select_control_number = none →
        _validate_flags env fl = ([Output.selectFlagError], false)) ∧
      (fl.list_ports = false → fl.bundle_files = some bfs →
        fl.generator_select_control_number = none →
        noneCount2 fl.end_call_control_number fl.phrase_bars = 1 →
        (pySplitComma bfs).length = 1 →
        (_validate_flags env fl).2 = true) := by
  intro env fl bfs
  refine ⟨?_, ?_, ?_⟩
  · intro hb hlen hsel
    rcases Bool.eq_false_or_eq_true (_validate_flags env fl).2 with hv | hv
    · rcases (validate_true_iff env fl).mp hv with ⟨_, _, _, hnot⟩
      rw [hb] at hnot
      simp only [Option.getD_some] at hnot
      exact absurd ⟨hlen, hsel⟩ hnot
    · exact hv
  · intro hlp hb hcount hlen hsel
    unfold _validate_flags
    rw [hb]
    simp [hlp, hcount, hlen, hsel]
  · intro hlp hb hsel hcount hlen
    rw [validate_true_iff]
    refine ⟨hlp, by simp [hb], hcount, ?_⟩
    rw [hb]
    simp only [Option.getD_some]
    intro hand
    omega

/-- C3: _generate raises the input-section exception iff more than one
input section is present, and the generate-section exception iff the input
count is admissible but the number of generate sections differs from one;
hence both checks pass exactly for at most one input section and exactly
one generate section. -/
theorem c3_generate_section_checks :
    ∀ (env : GenEnv) (input_sequence : NoteSequence)
      (generator_options : GeneratorOptions),
      (_generate env input_sequence generator_options =
          Except.error GenError.tooManyInputSections ↔
        generator_options.input_sections.length > 1) ∧
      (_generate env input_sequence generator_options =
          Except.error GenError.wrongGenerateSectionCount ↔
        (generator_options.input_sections.length ≤ 1 ∧
         generator_options.generate_sections.length ≠ 1)) := by
  intro env input_sequence generator_options
  simp only [_generate]
  split_ifs with h1 h2 h3 h4 h5 h6 <;> simp_all

/-- C2 (amended): _generate raises the range-check exception exactly when
the section-count checks pass and the last note end time of the primer
(0 when the primer has no notes) is greater than or equal to the start of
the generate section; in particular a primer whose last note ends exactly
at the generate start fails the check, and generation proceeds past it only
for a strictly smaller last end time. -/
theorem c2_generate_range_check :
    ∀ (env : GenEnv) (input_sequence : NoteSequence)
      (generator_options : GeneratorOptions),
      _generate env input_sequence generator_options =
          Except.error GenError.generateSectionBeforeEnd ↔
        (generator_options.input_sections.length ≤ 1 ∧
         generator_options.generate_sections.length = 1 ∧
         lastEndTime (primerAndStart env input_sequence generator_options
             (computeQpm input_sequence)).1.notes ≥
           (generator_options.generate_sections.headI).start_time) := by
  intro env input_sequence generator_options
  simp only [_generate]
  split_ifs with h1 h2 h3 h4 h5 h6 <;> simp_all

/-- C2 counterexample: a primer whose single note ends exactly at the
generate-section start time makes _generate raise the range-check
exception rather than proceed. -/
theorem c2_counterexample :
    lastEndTime cInput.notes = (cOpts.generate_sections.headI).start_time ∧
    cOpts.input_sections.length ≤ 1 ∧
    cOpts.generate_sections.length = 1 ∧
    _generate wGenEnv cInput cOpts =
      Except.error GenError.generateSectionBeforeEnd := by decide

/-- C5: on a bundle that fails to parse, and likewise on one whose
generator id is not in the generator map, main does not print a failure
message and return; it evaluates FLAGS.bundle_file, an attribute no
DEFINE_ call declares, so an AttributeError propagates with nothing
printed (the interaction still never starts). -/
theorem c5_load_failure_raises_attribute_error :
    magentaMain wMidiEnv cLoadEnvParse cFlagsBad =
      ([], MainOutcome.pyError (PyError.attributeError "bundle_file")) ∧
    magentaMain wMidiEnv cLoadEnvUnknown cFlagsBad =
      ([], MainOutcome.pyError (PyError.attributeError "bundle_file")) := by
  decide

theorem validate_no_virtual (env : MidiEnv) (fl : Flags) (p : String) :
    Output.virtualInput p ∉ (_validate_flags env fl).1 ∧
    Output.virtualOutput p ∉ (_validate_flags env fl).1 := by
  unfold _validate_flags
  split_ifs <;> simp

theorem load_no_virtual (lenv : LoadEnv) (fl : Flags) (p : String)
    (bundle_file : String) (out : List Output) (g : Option Generator)
    (h : _load_generator_from_bundle_file lenv fl bundle_file =
      Except.ok (out, g)) :
    Output.virtualInput p ∉ out ∧ Output.virtualOutput p ∉ out := by
  unfold _load_generator_from_bundle_file at h
  rcases hr : lenv.read_bundle_file bundle_file with _ | gid <;>
    simp only [hr] at h
  · rcases hf : flagAttr fl "bundle_file" with e | v <;> simp [hf] at h
    rcases h with ⟨h1, h2⟩
    subst h1
    simp
  · by_cases hg : gid ∈ lenv.generator_map
    · rw [if_pos hg] at h
      simp at h
      rcases h with ⟨h1, h2⟩
      subst h1
      simp
    · rw [if_neg hg] at h
      rcases hf : flagAttr fl "bundle_file" with e | v <;> simp [hf] at h
      rcases h with ⟨h1, h2⟩
      subst h1
      simp

theorem loadLoop_no_virtual (lenv : LoadEnv) (fl : Flags) (p : String) :
    ∀ (files : List String),
      Output.virtualInput p ∉ (loadLoop lenv fl files).1 ∧
      Output.virtualOutput p ∉ (loadLoop lenv fl files).1 := by
  intro files
  induction files with
  | nil => simp [loadLoop]
  | cons bf rest ih =>
    unfold loadLoop
    rcases hl : _load_generator_from_bundle_file lenv fl bf with e | ⟨out, g⟩
    · simp
    · rcases g with _ | g
      · have := load_no_virtual lenv fl p bf out none hl
        simpa using this
      · have := load_no_virtual lenv fl p bf out (some g) hl
        simp only [List.mem_append]
        constructor
        · intro hmem
          rcases hmem with hmem | hmem
          · exact this.1 hmem
          · exact ih.1 hmem
        · intro hmem
          rcases hmem with hmem | hmem
          · exact this.2 hmem
          · exact ih.2 hmem

theorem instructions_no_virtual (fl : Flags) (p : String) :
    Output.virtualInput p ∉ _print_instructions fl ∧
    Output.virtualOutput p ∉ _print_instructions fl := by
  unfold _print_instructions
  rcases fl.start_call_control_number with _ | c <;>
    rcases fl.phrase_bars with _ | n <;> simp

theorem main_cases (env : MidiEnv) (lenv : LoadEnv) (fl : Flags) :
    ((∀ i, (magentaMain env lenv fl).2 ≠ MainOutcome.started i) ∧
     ∀ p, Output.virtualInput p ∉ (magentaMain env lenv fl).1 ∧
          Output.virtualOutput p ∉ (magentaMain env lenv fl).1) ∨
    (∃ bfs gens,
      fl.bundle_files = some bfs ∧
      (loadLoop lenv fl (pySplitComma bfs)).2 = LoadOutcome.loaded gens ∧
      magentaMain env lenv fl =
        ((_validate_flags env fl).1 ++
         (loadLoop lenv fl (pySplitComma bfs)).1 ++
         ((if fl.input_port ∈ env.availableInputPorts then []
           else [Output.virtualInput fl.input_port]) ++
          (if fl.output_port ∈ env.availableOutputPorts then []
           else [Output.virtualOutput fl.output_port])) ++
         _print_instructions fl,
         MainOutcome.started (Interaction.mk
           (MidiHub.mk fl.input_port fl.output_port TextureType.monophonic)
           gens fl.qpm fl.generator_select_control_number fl.phrase_bars
           (fl.start_call_control_number.map
             (fun c => MidiSignal.mk (some c) (some 0) none none))
           (fl.end_call_control_number.map
             (fun c => MidiSignal.mk (some c) (some 0) none none))
           fl.temperature_control_number))) := by
  rcases Bool.eq_false_or_eq_true (_validate_flags env fl).2 with hv | hv
  case inr =>
    left
    have hm := main_invalid_of_validate_false env lenv fl hv
    have hout : (magentaMain env lenv fl).1 = (_validate_flags env fl).1 := by
      unfold magentaMain
      simp [hv]
    refine ⟨?_, ?_⟩
    · intro i hi
      rw [hm] at hi
      exact absurd hi (by simp)
    · intro p
      rw [hout]
      exact validate_no_virtual env fl p
  case inl =>
    rcases hbf : fl.bundle_files with _ | bfs
    · exact absurd hbf ((validate_true_iff env fl).mp hv).2.1
    · rcases hl : (loadLoop lenv fl (pySplitComma bfs)).2 with e | _ | gens
      · left
        have hmain : magentaMain env lenv fl =
            ((_validate_flags env fl).1 ++
             (loadLoop lenv fl (pySplitComma bfs)).1,
             MainOutcome.pyError e) := by
          unfold magentaMain
          simp [hv, hbf, hl]
        rw [hmain]
        refine ⟨by intro i; simp, ?_⟩
        intro p
        simp only [List.mem_append, not_or]
        exact ⟨⟨(validate_no_virtual env fl p).1,
                (loadLoop_no_virtual lenv fl p (pySplitComma bfs)).1⟩,
               ⟨(validate_no_virtual env fl p).2,
                (loadLoop_no_virtual lenv fl p (pySplitComma bfs)).2⟩⟩
      · left
        have hmain : magentaMain env lenv fl =
            ((_validate_flags env fl).1 ++
             (loadLoop lenv fl (pySplitComma bfs)).1,
             MainOutcome.loadFailed) := by
          unfold magentaMain
          simp [hv, hbf, hl]
        rw [hmain]
        refine ⟨by intro i; simp, ?_⟩
        intro p
        simp only [List.mem_append, not_or]
        exact ⟨⟨(validate_no_virtual env fl p).1,
                (loadLoop_no_virtual lenv fl p (pySplitComma bfs)).1⟩,
               ⟨(validate_no_virtual env fl p).2,
                (loadLoop_no_virtual lenv fl p (pySplitComma bfs)).2⟩⟩
      · right
        refine ⟨bfs, gens, rfl, by rw [hl], ?_⟩
        unfold magentaMain
        simp [hv, hbf, hl]

/-- C6: whenever the interaction starts, the MidiHub is opened on exactly
the configured input and output port names (port availability is never
checked before opening), and the virtual-port notice for a port is printed
exactly when the run reaches the hub and that name is absent from the
corresponding list of available ports. -/
theorem c6_virtual_port_notice :
    ∀ (env : MidiEnv) (lenv : LoadEnv) (fl : Flags),
      (∀ i, (magentaMain env lenv fl).2 = MainOutcome.started i →
        i.hub = MidiHub.mk fl.input_port fl.output_port
          TextureType.monophonic) ∧
      (Output.virtualInput fl.input_port ∈ (magentaMain env lenv fl).1 ↔
        ((∃ i, (magentaMain env lenv fl).2 = MainOutcome.started i) ∧
         fl.input_port ∉ env.availableInputPorts)) ∧
      (Output.virtualOutput fl.output_port ∈ (magentaMain env lenv fl).1 ↔
        ((∃ i, (magentaMain env lenv fl).2 = MainOutcome.started i) ∧
         fl.output_port ∉ env.availableOutputPorts)) := by
  intro env lenv fl
  rcases main_cases env lenv fl with ⟨hns, hnv⟩ | ⟨bfs, gens, hbf, hl, hmain⟩
  · refine ⟨?_, ?_, ?_⟩
    · intro i hi
      exact absurd hi (hns i)
    · constructor
      · intro hm
        exact absurd hm (hnv fl.input_port).1
      · rintro ⟨⟨i, hi⟩, _⟩
        exact absurd hi (hns i)
    · constructor
      · intro hm
        exact absurd hm (hnv fl.output_port).2
      · rintro ⟨⟨i, hi⟩, _⟩
        exact absurd hi (hns i)
  · rw [hmain]
    refine ⟨?_, ?_, ?_⟩
    · intro i hi
      simp only [MainOutcome.started.injEq] at hi
      rw [← hi]
    · have h1 := (validate_no_virtual env fl fl.input_port).1
      have h2 := (loadLoop_no_virtual lenv fl fl.input_port
        (pySplitComma bfs)).1
      have h3 := (instructions_no_virtual fl fl.input_port).1
      by_cases hp : fl.input_port ∈ env.availableInputPorts <;>
        simp [hp, h1, h2, h3, List.mem_append]
    · have h1 := (validate_no_virtual env fl fl.output_port).2
      have h2 := (loadLoop_no_virtual lenv fl fl.output_port
        (pySplitComma bfs)).2
      have h3 := (instructions_no_virtual fl fl.output_port).2
      by_cases hp : fl.output_port ∈ env.availableOutputPorts <;>
        simp [hp, h1, h2, h3, List.mem_append]

theorem c6_witness :
    (magentaMain wMidiEnv wLoadEnv wFlags).2 =
      MainOutcome.started wInteraction ∧
    wInteraction.hub = MidiHub.mk "magenta_in" "magenta_out"
      TextureType.monophonic ∧
    Output.virtualOutput "magenta_out" ∈ (magentaMain wMidiEnv wLoadEnv
      wFlags).1 :=
  ⟨by decide,
   (c6_virtual_port_notice wMidiEnv wLoadEnv wFlags).1 wInteraction
     (by decide),
   ((c6_virtual_port_notice wMidiEnv wLoadEnv wFlags).2.2).mpr
     ⟨⟨wInteraction, by decide⟩, by decide⟩⟩

/-- C8: whenever the interaction starts, its start-call and end-call
signals are exactly the configured control numbers paired with value 0
(none when unconfigured), and such a signal matches precisely the
ControlChange messages carrying that control number and value exactly 0
(any other value, and any note message, is not a trigger). -/
theorem c8_signal_value_pinned :
    ∀ (env : MidiEnv) (lenv : LoadEnv) (fl : Flags) (i : Interaction),
      (magentaMain env lenv fl).2 = MainOutcome.started i →
      ((i.start_call_signal = fl.start_call_control_number.map
          (fun c => MidiSignal.mk (some c) (some 0) none none) ∧
        i.end_call_signal = fl.end_call_control_number.map
          (fun c => MidiSignal.mk (some c) (some 0) none none)) ∧
       ∀ (c : Int) (msg : MidiMessage),
         (MidiSignal.mk (some c) (some 0) none none).matchesMsg msg = true ↔
           ∃ t, msg = MidiMessage.controlChange c 0 t) := by
  intro env lenv fl i hi
  rcases main_cases env lenv fl with ⟨hns, _⟩ | ⟨bfs, gens, hbf, hl, hmain⟩
  · exact absurd hi (hns i)
  · rw [hmain] at hi
    simp only [MainOutcome.started.injEq] at hi
    constructor
    · rw [← hi]
      exact ⟨rfl, rfl⟩
    · intro c msg
      rcases msg with ⟨p, vel, t⟩ | ⟨p, t⟩ | ⟨num, val, t⟩ <;>
        simp [MidiSignal.matchesMsg]
      all_goals aesop

theorem c8_witness :
    (magentaMain wMidiEnv wLoadEnv wFlags).2 =
      MainOutcome.started wInteraction ∧
    wInteraction.end_call_signal = wFlags.end_call_control_number.map
      (fun c => MidiSignal.mk (some c) (some 0) none none) ∧
    wInteraction.start_call_signal = wFlags.start_call_control_number.map
      (fun c => MidiSignal.mk (some c) (some 0) none none) :=
  ⟨by decide,
   ((c8_signal_value_pinned wMidiEnv wLoadEnv wFlags wInteraction
      (by decide)).1).2,
   ((c8_signal_value_pinned wMidiEnv wLoadEnv wFlags wInteraction
      (by decide)).1).1⟩

/-- C7: whenever _generate succeeds, the returned sequence satisfies the
final assert: its total_time exceeds the generate-section end time by at
most the 1e-5 tolerance, so the response fits the requested range. -/
theorem c7_response_within_range :
    ∀ (env : GenEnv) (input_sequence : NoteSequence)
      (generator_options : GeneratorOptions) (seq : NoteSequence),
      _generate env input_sequence generator_options = Except.ok seq →
      seq.total_time - (generator_options.generate_sections.headI).end_time ≤
        ASSERT_TOLERANCE := by
  intro env input_sequence generator_options seq h
  simp only [_generate] at h
  split_ifs at h with h1 h2 h3 h4 h5 h6 <;> simp_all

theorem wGenerateOk : _generate wGenEnv wInput wOpts = Except.ok wSeq := by
  norm_num [_generate, wGenEnv, wInput, wOpts, wSeq, computeQpm,
    primerAndStart, lastEndTime, extractArgs, argTypes, ASSERT_TOLERANCE]

theorem c7_witness :
    _generate wGenEnv wInput wOpts = Except.ok wSeq ∧
    wSeq.total_time - (wOpts.generate_sections.headI).end_time ≤
      ASSERT_TOLERANCE :=
  ⟨wGenerateOk,
   c7_response_within_range wGenEnv wInput wOpts wSeq wGenerateOk⟩

/-- C9: the args forwarded to the model are exactly the entries of
GeneratorOptions.args named in the fixed set, temperature read as a float
and beam_size, branch_factor and steps_per_iteration as ints; any other
name is absent from the forwarded map, never causes an error, and the
model call of _generate depends on the args only through that filtered
map. -/
theorem c9_args_filtering :
    (∀ (generator_options : GeneratorOptions) (name : String),
      name ≠ "temperature" → name ≠ "beam_size" → name ≠ "branch_factor" →
      name ≠ "steps_per_iteration" →
      List.lookup name (extractArgs generator_options) = none) ∧
    (∀ (generator_options : GeneratorOptions),
      List.lookup "temperature" (extractArgs generator_options) =
        (List.lookup "temperature" generator_options.args).map
          (fun arg => PyVal.floatVal arg.float_value) ∧
      List.lookup "beam_size" (extractArgs generator_options) =
        (List.lookup "beam_size" generator_options.args).map
          (fun arg => PyVal.intVal arg.int_value) ∧
      List.lookup "branch_factor" (extractArgs generator_options) =
        (List.lookup "branch_factor" generator_options.args).map
          (fun arg => PyVal.intVal arg.int_value) ∧
      List.lookup "steps_per_iteration" (extractArgs generator_options) =
        (List.lookup "steps_per_iteration" generator_options.args).map
          (fun arg => PyVal.intVal arg.int_value)) ∧
    (∀ (env : GenEnv)
        (f g : Int → DrumTrack → List (String × PyVal) → DrumTrack)
        (input_sequence : NoteSequence)
        (generator_options : GeneratorOptions),
      (∀ n d, f n d (extractArgs generator_options) =
        g n d (extractArgs generator_options)) →
      _generate { env with generate_drum_track := f } input_sequence
          generator_options =
        _generate { env with generate_drum_track := g } input_sequence
          generator_options) := by
  refine ⟨?_, ?_, ?_⟩
  · intro generator_options name h1 h2 h3 h4
    have e1 : (name == "temperature") = false := beq_eq_false_iff_ne.mpr h1
    have e2 : (name == "beam_size") = false := beq_eq_false_iff_ne.mpr h2
    have e3 : (name == "branch_factor") = false := beq_eq_false_iff_ne.mpr h3
    have e4 : (name == "steps_per_iteration") = false :=
      beq_eq_false_iff_ne.mpr h4
    unfold extractArgs argTypes
    rcases l1 : List.lookup "temperature" generator_options.args with _ | a1 <;>
    rcases l2 : List.lookup "beam_size" generator_options.args with _ | a2 <;>
    rcases l3 : List.lookup "branch_factor" generator_options.args
      with _ | a3 <;>
    rcases l4 : List.lookup "steps_per_iteration" generator_options.args
      with _ | a4 <;>
      simp [l1, l2, l3, l4, List.lookup, List.filterMap, e1, e2, e3, e4]
  · intro generator_options
    unfold extractArgs argTypes
    rcases l1 : List.lookup "temperature" generator_options.args with _ | a1 <;>
    rcases l2 : List.lookup "beam_size" generator_options.args with _ | a2 <;>
    rcases l3 : List.lookup "branch_factor" generator_options.args
      with _ | a3 <;>
    rcases l4 : List.lookup "steps_per_iteration" generator_options.args
      with _ | a4 <;>
      simp [l1, l2, l3, l4, List.lookup, List.filterMap]
  · intro env f g input_sequence generator_options h
    obtain ⟨spq, sts, exs, qns, edt, slen, gdt, tseq⟩ := env
    simp only [_generate, primerAndStart, h]

/-- C10: the qpm used by _generate is the first tempo of the input sequence
when one is present and the library default otherwise; the step conversion
consults seconds_to_steps only at that qpm, the returned sequence is built
by to_sequence at that qpm, and an absent tempo never causes a failure. -/
theorem c10_qpm_selection :
    (∀ (input_sequence : NoteSequence),
      input_sequence.tempos ≠ [] →
      computeQpm input_sequence = (input_sequence.tempos.headI).qpm) ∧
    (∀ (input_sequence : NoteSequence),
      input_sequence.tempos = [] →
      computeQpm input_sequence = DEFAULT_QUARTERS_PER_MINUTE) ∧
    (∀ (env : GenEnv) (f g : ℚ → ℚ → Int) (input_sequence : NoteSequence)
        (generator_options : GeneratorOptions),
      (∀ s, f s (computeQpm input_sequence) =
        g s (computeQpm input_sequence)) →
      _generate { env with seconds_to_steps := f } input_sequence
          generator_options =
        _generate { env with seconds_to_steps := g } input_sequence
          generator_options) ∧
    (∀ (env : GenEnv) (input_sequence : NoteSequence)
        (generator_options : GeneratorOptions) (seq : NoteSequence),
      _generate env input_sequence generator_options = Except.ok seq →
      ∃ d, seq = env.to_sequence d (computeQpm input_sequence)) := by
  refine ⟨?_, ?_, ?_, ?_⟩
  · intro input_sequence h
    simp [computeQpm, h]
  · intro input_sequence h
    simp [computeQpm, h]
  · intro env f g input_sequence generator_options h
    obtain ⟨spq, sts, exs, qns, edt, slen, gdt, tseq⟩ := env
    simp only [_generate, primerAndStart, h]
  · intro env input_sequence generator_options seq h
    simp only [_generate] at h
    split_ifs at h with h1 h2 h3 h4 h5 h6 <;>
      first
        | exact Except.noConfusion h
        | (rw [Except.ok.injEq] at h
           exact ⟨_, h.symm⟩)

theorem c10_witness :
    computeQpm wInputTempo = (wInputTempo.tempos.headI).qpm ∧
    computeQpm wInput = DEFAULT_QUARTERS_PER_MINUTE ∧
    ∃ d, wSeq = wGenEnv.to_sequence d (computeQpm wInput) :=
  ⟨c10_qpm_selection.1 wInputTempo (by decide),
   c10_qpm_selection.2.1 wInput (by decide),
   c10_qpm_selection.2.2.2 wGenEnv wInput wOpts wSeq wGenerateOk⟩

theorem c9_witness :
    List.lookup "foo" (extractArgs wArgsOpts) = none ∧
    List.lookup "temperature" (extractArgs wArgsOpts) =
      (List.lookup "temperature" wArgsOpts.args).map
        (fun arg => PyVal.floatVal arg.float_value) :=
  ⟨c9_args_filtering.1 wArgsOpts "foo" (by decide) (by decide) (by decide)
     (by decide),
   (c9_args_filtering.2.1 wArgsOpts).1⟩

theorem c4_witness :
    (_validate_flags wMidiEnv cFlagsTwo).2 = false ∧
    (_validate_flags wMidiEnv wFlags).2 = true :=
  ⟨(c4_multi_generator_select_required wMidiEnv cFlagsTwo "a.mag,b.mag").1
      (by decide) (by decide) (by decide),
   (c4_multi_generator_select_required wMidiEnv wFlags "drums.mag").2.2
      (by decide) (by decide) (by decide) (by decide) (by decide)⟩
